import Mathlib

/-!
Verification of the Clue web client (Vue frontend).

The definitions below are a shallow embedding of the JavaScript in
`src/frontend/src/App.vue`, `src/frontend/src/components/GameBoard.vue`,
`src/frontend/src/components/BoardMap.vue`,
`src/frontend/src/components/DetectiveNotes.vue`,
`src/frontend/src/components/ChatPanel.vue` and the alternative
game-board component `src/unnamed/part_005`.

Modelling conventions:
- JS objects used as string-keyed maps (`gameState.current_room`,
  the detective-notes table) are association lists
  `List (String × String)`; `objSet` mirrors JS property assignment
  (update in place when the key exists, append otherwise) and
  `List.lookup` mirrors property read.
- `if (x)` on a possibly-absent JSON field is `Option`: a present field
  (even an empty array, which is truthy in JS) takes the branch, so the
  guard is `Option.getD` / a match on the option.
- Numbers carried by messages (dice values) are `Int`.
- The JS record spread `{ ...state, f: v }` is the Lean structure
  update `{ state with f := v }`.
-/

set_option maxHeartbeats 1000000
set_option maxRecDepth 4000

/-- One entry of the `players` array of the game state.  The JSON field
`type` is called `ptype` here because of the Lean field-name clash. -/
structure Player where
  id : String
  name : String
  character : String
  ptype : String
  active : Bool
deriving DecidableEq

/-- The revealed solution object `{suspect, weapon, room}`. -/
structure SolutionCards where
  suspect : String
  weapon : String
  room : String
deriving DecidableEq

/-- One entry of `suggestions_this_turn`. -/
structure SuggestionRec where
  suspect : String
  weapon : String
  room : String
  suggested_by : String
deriving DecidableEq

/-- The `showCardRequest` ref set by a `show_card_request` message. -/
structure ShowCardRequest where
  suggestingPlayerId : String
  suspect : String
  weapon : String
  room : String
deriving DecidableEq

/-- The `cardShown` ref: `{ card: msg.card, by: msg.shown_by }`.  The JS
key `by` is called `shownBy` here because `by` is reserved in Lean. -/
structure CardShownInfo where
  card : String
  shownBy : String
deriving DecidableEq

/-- A chat message as appended to `chatMessages`. -/
structure ChatMsg where
  player_id : Option String
  text : String
  timestamp : Option String
deriving DecidableEq

/-- The `gameState` object held by the client (the fields the client
reads anywhere).  `your_cards` and `available_actions` are optional
because only some server snapshots include them. -/
structure GameStateJS where
  status : String
  players : List Player
  whose_turn : Option String
  current_room : List (String × String)
  last_roll : Option (Int × Int)
  dice_rolled : Bool
  suggestions_this_turn : List SuggestionRec
  winner : Option String
  solution : Option SolutionCards
  turn_number : Int
  your_cards : Option (List String)
  available_actions : Option (List String)
deriving DecidableEq

/-- A partial `game_state` message (`msg` without `type`, merged into the
current state by `{ ...gameState.value, ...fields }`).  Each present
field overwrites the stored one. -/
structure GameStatePatch where
  status : Option String
  players : Option (List Player)
  whose_turn : Option (Option String)
  current_room : Option (List (String × String))
  last_roll : Option (Option (Int × Int))
  dice_rolled : Option Bool
  suggestions_this_turn : Option (List SuggestionRec)
  winner : Option (Option String)
  solution : Option (Option SolutionCards)
  turn_number : Option Int
deriving DecidableEq

/-- Merge a partial update into a game state, mirroring the JS object
spread for the fields the client reads. -/
def applyPatch (gs : GameStateJS) (p : GameStatePatch) : GameStateJS where
  status := p.status.getD gs.status
  players := p.players.getD gs.players
  whose_turn := p.whose_turn.getD gs.whose_turn
  current_room := p.current_room.getD gs.current_room
  last_roll := p.last_roll.getD gs.last_roll
  dice_rolled := p.dice_rolled.getD gs.dice_rolled
  suggestions_this_turn := p.suggestions_this_turn.getD gs.suggestions_this_turn
  winner := p.winner.getD gs.winner
  solution := p.solution.getD gs.solution
  turn_number := p.turn_number.getD gs.turn_number
  your_cards := gs.your_cards
  available_actions := gs.available_actions

/-- The state a partial `game_state` merge starts from when
`gameState.value` is still `null` (JS spread of `null` yields an empty
object). -/
def emptyGameState : GameStateJS where
  status := ""
  players := []
  whose_turn := none
  current_room := []
  last_roll := none
  dice_rolled := false
  suggestions_this_turn := []
  winner := none
  solution := none
  turn_number := 0
  your_cards := none
  available_actions := none

/-- The reactive refs of `App.vue` that `handleMessage` can touch. -/
structure ClientState where
  gameState : Option GameStateJS
  yourCards : List String
  availableActions : List String
  showCardRequest : Option ShowCardRequest
  cardShown : Option CardShownInfo
  chatMessages : List ChatMsg
deriving DecidableEq

/-- The inbound WebSocket messages dispatched by the `switch` of
`handleMessage` in `App.vue`.  `card_shown_public` carries two payload
fields standing for whatever the wire message may additionally contain
about the exchange (the handler reads none of them). -/
inductive Msg where
  | game_state_full (state : GameStateJS)
  | game_state_patch (p : GameStatePatch)
  | player_joined (players : List Player)
  | game_started (your_cards : Option (List String))
      (available_actions : Option (List String)) (whose_turn : Option String)
  | your_turn (available_actions : Option (List String))
  | show_card_request (suggesting_player_id suspect weapon room : String)
      (available_actions : Option (List String))
  | player_moved (player_id room : String) (dice : Int)
  | suggestion_made (player_id suspect weapon room : String)
  | card_shown (card shown_by : String) (available_actions : Option (List String))
  | card_shown_public (shownCard shownTo : String)
  | accusation_made (player_id : String) (correct : Bool)
  | game_over (winner : Option String) (solution : Option SolutionCards)
  | chat_message (m : ChatMsg)
  | pong

/-- JS object property assignment `m[k] = v` on an association list:
overwrite the entry when the key is present, append otherwise. -/
def objSet (m : List (String × String)) (k v : String) : List (String × String) :=
  if m.any (fun p => p.1 == k) then
    m.map (fun p => if p.1 == k then (k, v) else p)
  else
    m ++ [(k, v)]

/-- The `handleMessage` switch of `src/frontend/src/App.vue` (the
`src/unnamed/part_000` variant agrees on every branch modelled here; it
additionally tracks `player_positions` on `player_moved` and accepts a
full-state `game_started`). -/
def handleMessage (s : ClientState) (msg : Msg) : ClientState :=
  match msg with
  | .game_state_full st =>
      { s with gameState := some st,
               yourCards := st.your_cards.getD s.yourCards,
               availableActions := st.available_actions.getD s.availableActions }
  | .game_state_patch p =>
      { s with gameState := some (applyPatch (s.gameState.getD emptyGameState) p) }
  | .player_joined ps =>
      match s.gameState with
      | some gs => { s with gameState := some { gs with players := ps } }
      | none => s
  | .game_started yc aa wt =>
      match s.gameState with
      | some gs =>
          { s with yourCards := yc.getD s.yourCards,
                   availableActions := aa.getD s.availableActions,
                   gameState := some { gs with status := "playing", whose_turn := wt } }
      | none =>
          { s with yourCards := yc.getD s.yourCards,
                   availableActions := aa.getD s.availableActions }
  | .your_turn aa =>
      { s with availableActions := aa.getD s.availableActions,
               showCardRequest := none }
  | .show_card_request spid su we ro aa =>
      { s with showCardRequest := some ⟨spid, su, we, ro⟩,
               availableActions := aa.getD s.availableActions }
  | .player_moved pid room dice =>
      match s.gameState with
      | some gs =>
          { s with gameState := some { gs with
              current_room := objSet gs.current_room pid room,
              last_roll := some (dice, 0),
              dice_rolled := true } }
      | none => s
  | .suggestion_made pid su we ro =>
      match s.gameState with
      | some gs =>
          { s with gameState := some { gs with
              suggestions_this_turn := gs.suggestions_this_turn ++ [⟨su, we, ro, pid⟩] } }
      | none => s
  | .card_shown card shownBy aa =>
      { s with cardShown := some ⟨card, shownBy⟩,
               availableActions := aa.getD s.availableActions,
               showCardRequest := none }
  | .card_shown_public _ _ =>
      { s with showCardRequest := none }
  | .accusation_made pid correct =>
      match s.gameState with
      | some gs =>
          if correct then s
          else
            { s with gameState := some { gs with
                players := gs.players.map (fun p =>
                  if p.id == pid then { p with active := false } else p) } }
      | none => s
  | .game_over w sol =>
      match s.gameState with
      | some gs =>
          { s with
              gameState := some { gs with status := "finished", winner := w, solution := sol },
              availableActions := [] }
      | none => { s with availableActions := [] }
  | .chat_message m =>
      { s with chatMessages := s.chatMessages ++ [m] }
  | .pong => s

/-- The card constants shared by `GameBoard.vue`, `part_005` and
`DetectiveNotes.vue`. -/
def SUSPECTS : List String :=
  ["Miss Scarlett", "Colonel Mustard", "Mrs. White",
   "Reverend Green", "Mrs. Peacock", "Professor Plum"]

/-- The six weapon cards. -/
def WEAPONS : List String :=
  ["Candlestick", "Knife", "Lead Pipe", "Revolver", "Rope", "Wrench"]

/-- The nine room cards, also the movement destinations. -/
def ROOMS : List String :=
  ["Kitchen", "Ballroom", "Conservatory", "Billiard Room", "Library",
   "Study", "Hall", "Lounge", "Dining Room"]

/-- The whole card namespace, suspects then weapons then rooms. -/
def ALL_CARDS : List String := SUSPECTS ++ WEAPONS ++ ROOMS

/-- `cardCategory` of `part_005`: first matching category wins. -/
def cardCategory (card : String) : String :=
  if SUSPECTS.contains card then "card-suspect"
  else if WEAPONS.contains card then "card-weapon"
  else if ROOMS.contains card then "card-room"
  else ""

/-- The from/to projection of the `secretPassages` table of
`BoardMap.vue` (each source entry also carries `row`/`col` display
coordinates derived from `ROOM_INFO`, pure rendering data omitted
here). -/
def secretPassages : List (String × String) :=
  [("Study", "Kitchen"), ("Kitchen", "Study"),
   ("Lounge", "Conservatory"), ("Conservatory", "Lounge")]

/-- `props.gameState?.status === x` (false when `gameState` is null). -/
def statusIs (s : ClientState) (x : String) : Bool :=
  match s.gameState with
  | some gs => gs.status == x
  | none => false

/-- `isMyTurn` of `part_005` and `GameBoard.vue`:
`props.gameState?.whose_turn === props.playerId`. -/
def isMyTurn (s : ClientState) (playerId : String) : Bool :=
  match s.gameState with
  | some gs => gs.whose_turn == some playerId
  | none => false

/-- `myCurrentRoom`:
`props.gameState?.current_room?.[props.playerId] ?? null`. -/
def myCurrentRoom (s : ClientState) (playerId : String) : Option String :=
  match s.gameState with
  | some gs => gs.current_room.lookup playerId
  | none => none

/-- `canMove` of `part_005`: availableActions.includes of the action. -/
def canMove (s : ClientState) : Bool := s.availableActions.contains "move"

/-- `canSuggest` of `part_005`. -/
def canSuggest (s : ClientState) : Bool := s.availableActions.contains "suggest"

/-- `canAccuse` of `part_005`. -/
def canAccuse (s : ClientState) : Bool := s.availableActions.contains "accuse"

/-- `canEndTurn` of `part_005`. -/
def canEndTurn (s : ClientState) : Bool := s.availableActions.contains "end_turn"

/-- The guard of the actions panel of `part_005` (line 118):
`isMyTurn AND NOT showCardRequest AND gameState?.status === playing AND
NOT isObserver`. -/
def actionsPanelShown (s : ClientState) (playerId : String) (isObserver : Bool) : Bool :=
  isMyTurn s playerId && s.showCardRequest.isNone && statusIs s "playing" && !isObserver

/-- The Move group of `part_005` renders inside the panel under
`v-if canMove`. -/
def moveControlOffered (s : ClientState) (playerId : String) (isObserver : Bool) : Bool :=
  actionsPanelShown s playerId isObserver && canMove s

/-- The Suggest group of `part_005` renders inside the panel under
`v-if canSuggest`. -/
def suggestControlOffered (s : ClientState) (playerId : String) (isObserver : Bool) : Bool :=
  actionsPanelShown s playerId isObserver && canSuggest s

/-- The Accuse group of `part_005` renders inside the panel under
`v-if canAccuse`. -/
def accuseControlOffered (s : ClientState) (playerId : String) (isObserver : Bool) : Bool :=
  actionsPanelShown s playerId isObserver && canAccuse s

/-- The End-Turn group of `part_005` renders inside the panel under
`v-if canEndTurn`. -/
def endTurnControlOffered (s : ClientState) (playerId : String) (isObserver : Bool) : Bool :=
  actionsPanelShown s playerId isObserver && canEndTurn s

/-- The actions section guard of the older `GameBoard.vue` (line 43):
`isMyTurn AND gameState?.status === playing`. -/
def actionsPanelShownGB (s : ClientState) (playerId : String) : Bool :=
  isMyTurn s playerId && statusIs s "playing"

/-- JS truthiness of `myCurrentRoom` (a null or empty string is falsy). -/
def isTruthyRoom (o : Option String) : Bool :=
  match o with
  | some r => !(r == "")
  | none => false

/-- `gameState.dice_rolled` read by `GameBoard.vue`. -/
def diceRolled (s : ClientState) : Bool :=
  match s.gameState with
  | some gs => gs.dice_rolled
  | none => false

/-- The Suggest group guard of `GameBoard.vue` (line 57), inside the
actions section: `v-if myCurrentRoom AND gameState.dice_rolled`. -/
def suggestControlsShownGB (s : ClientState) (playerId : String) : Bool :=
  actionsPanelShownGB s playerId && isTruthyRoom (myCurrentRoom s playerId) && diceRolled s

/-- The payload of the `suggest` action emitted by `doSuggest` (the
constant JS field `type: suggest` is implicit in the Lean type). -/
structure SuggestAction where
  suspect : String
  weapon : String
  room : Option String
deriving DecidableEq

/-- `doSuggest` of `part_005` (line 335) and `GameBoard.vue` (line 164):
emits suspect and weapon from the form and `room: myCurrentRoom.value`. -/
def doSuggest (s : ClientState) (playerId suspect weapon : String) : SuggestAction :=
  ⟨suspect, weapon, myCurrentRoom s playerId⟩

/-- `matchingCards` of `part_005` (line 286): the hand filtered to the
cards the pending suggestion names. -/
def matchingCards (req : Option ShowCardRequest) (yourCards : List String) : List String :=
  match req with
  | none => []
  | some r => yourCards.filter (fun c => [r.suspect, r.weapon, r.room].contains c)

/-- The detective-notes table of `DetectiveNotes.vue`: card name to
state string among empty (unknown), `have`, `seen`, `no`, `maybe`. -/
abbrev Notes := List (String × String)

/-- The click cycle of `DetectiveNotes.vue`. -/
def CYCLE : List String := ["", "no", "maybe", ""]

/-- `CYCLE.indexOf(current)` of JS: index of the first occurrence, `-1`
when absent. -/
def cycleIndexOf (current : String) : Int :=
  match CYCLE.findIdx? (fun x => x == current) with
  | some i => (i : Int)
  | none => -1

/-- The successor along the click cycle:
`CYCLE[(CYCLE.indexOf(current) + 1) % CYCLE.length]`. -/
def cycleNext (current : String) : String :=
  CYCLE.getD ((cycleIndexOf current + 1) % (CYCLE.length : Int)).toNat ""

/-- `cycleNote` of `DetectiveNotes.vue` (line 96): a card held in hand
never changes; otherwise advance along `CYCLE` starting from the stored
state (`notes[card] ?? empty`). -/
def cycleNote (notes : Notes) (card : String) : Notes :=
  if notes.lookup card == some "have" then notes
  else objSet notes card (cycleNext ((notes.lookup card).getD ""))

/-- `markCard` of `DetectiveNotes.vue` (line 106): set the state unless
the card is marked `have`. -/
def markCard (notes : Notes) (card state : String) : Notes :=
  if notes.lookup card == some "have" then notes
  else objSet notes card state

/-- A user interaction with the detective notes: a click on a row or a
programmatic `markCard` call from the parent. -/
inductive NoteOp where
  | cycle (card : String)
  | mark (card state : String)

/-- Run a sequence of detective-notes interactions. -/
def applyNoteOps (notes : Notes) (ops : List NoteOp) : Notes :=
  ops.foldl (fun n op =>
    match op with
    | .cycle c => cycleNote n c
    | .mark c st => markCard n c st) notes

/-- The whitespace test of JS `String.prototype.trim` (the common
whitespace and line-terminator code points). -/
def isJsWhitespace (c : Char) : Bool :=
  c == ' ' || c == '\t' || c == '\n' || c == '\r' ||
  c == '\u000B' || c == '\u000C' || c == '\u00A0' ||
  c == '\u2028' || c == '\u2029' || c == '\uFEFF'

/-- `input.trim()`: drop whitespace from both ends. -/
def jsTrim (s : String) : String :=
  ⟨(((s.data.dropWhile isJsWhitespace).reverse.dropWhile isJsWhitespace).reverse)⟩

/-- `sendMessage` of `ChatPanel.vue` (line 46): returns the emitted
`send-message` payload (if any) and the new content of the input
field. -/
def jsSendMessage (input : String) : Option String × String :=
  let text := jsTrim input
  if text = "" then (none, input)
  else (some text, "")

/-! ### Association-list lemmas for `objSet` -/

theorem lookup_map_overwrite_self (t : List (String × String)) (k v : String)
    (hany : t.any (fun p => p.1 == k) = true) :
    (t.map (fun p => if p.1 == k then (k, v) else p)).lookup k = some v := by
  induction t with
  | nil => simp at hany
  | cons p t ih =>
    obtain ⟨a, b⟩ := p
    by_cases ha : a = k
    · simp [ha]
    · have hab : (a == k) = false := by simp [ha]
      have hka : (k == a) = false := by
        simp only [beq_eq_false_iff_ne]
        exact fun e => ha e.symm
      have ht : t.any (fun p => p.1 == k) = true := by
        simpa [hab] using hany
      have hhead : (if a == k then (k, v) else (a, b)) = (a, b) := by simp [hab]
      rw [List.map_cons, hhead, List.lookup_cons, hka]
      exact ih ht

theorem lookup_map_overwrite_ne (t : List (String × String)) (k v q : String)
    (h : q ≠ k) :
    (t.map (fun p => if p.1 == k then (k, v) else p)).lookup q = t.lookup q := by
  induction t with
  | nil => rfl
  | cons p t ih =>
    obtain ⟨a, b⟩ := p
    have hqk : (q == k) = false := by simp [h]
    by_cases ha : a = k
    · subst ha
      have hhead : (if a == a then (a, v) else (a, b)) = (a, v) := by simp
      rw [List.map_cons, hhead, List.lookup_cons, List.lookup_cons, hqk]
      exact ih
    · have hab : (a == k) = false := by simp [ha]
      have hhead : (if a == k then (k, v) else (a, b)) = (a, b) := by simp [hab]
      rw [List.map_cons, hhead, List.lookup_cons, List.lookup_cons]
      cases hqa : q == a
      · exact ih
      · rfl

theorem lookup_append_absent_self (m : List (String × String)) (k v : String)
    (hany : m.any (fun p => p.1 == k) = false) :
    (m ++ [(k, v)]).lookup k = some v := by
  induction m with
  | nil => simp
  | cons p t ih =>
    obtain ⟨a, b⟩ := p
    rw [List.any_cons] at hany
    have h1 : (a == k) = false := by
      cases h : (a == k) <;> simp [h] at hany ⊢
    have h2 : t.any (fun p => p.1 == k) = false := by
      cases h : t.any (fun p => p.1 == k) <;> simp [h, h1] at hany ⊢
    have hka : (k == a) = false := by
      simp only [beq_eq_false_iff_ne] at h1 ⊢
      exact fun e => h1 e.symm
    simp only [List.cons_append]
    rw [List.lookup_cons]
    simp [hka, ih h2]

theorem lookup_objSet_self (m : List (String × String)) (k v : String) :
    (objSet m k v).lookup k = some v := by
  by_cases hany : m.any (fun p => p.1 == k) = true
  · rw [objSet, if_pos hany]
    exact lookup_map_overwrite_self m k v hany
  · have hf : m.any (fun p => p.1 == k) = false := by
      cases h : m.any (fun p => p.1 == k)
      · rfl
      · exact absurd h hany
    rw [objSet, if_neg hany]
    exact lookup_append_absent_self m k v hf

theorem lookup_objSet_ne (m : List (String × String)) (k v q : String)
    (h : q ≠ k) :
    (objSet m k v).lookup q = m.lookup q := by
  by_cases hany : m.any (fun p => p.1 == k) = true
  · rw [objSet, if_pos hany]
    exact lookup_map_overwrite_ne m k v q h
  · rw [objSet, if_neg hany, List.lookup_append]
    have hone : ([(k, v)] : List (String × String)).lookup q = none := by
      rw [List.lookup_cons]
      have : (q == k) = false := by simp [h]
      simp [this]
    rw [hone, Option.or_none]

/-! ### Detective-notes lemmas -/

theorem cycleNote_preserves_have (n : Notes) (c card : String)
    (h : n.lookup card = some "have") :
    (cycleNote n c).lookup card = some "have" := by
  unfold cycleNote
  by_cases hg : (n.lookup c == some "have") = true
  · rw [if_pos hg]; exact h
  · rw [if_neg hg]
    by_cases hcc : card = c
    · subst hcc
      rw [h] at hg
      exact absurd (by decide) hg
    · rw [lookup_objSet_ne n c _ card hcc]
      exact h

theorem markCard_preserves_have (n : Notes) (c st card : String)
    (h : n.lookup card = some "have") :
    (markCard n c st).lookup card = some "have" := by
  unfold markCard
  by_cases hg : (n.lookup c == some "have") = true
  · rw [if_pos hg]; exact h
  · rw [if_neg hg]
    by_cases hcc : card = c
    · subst hcc
      rw [h] at hg
      exact absurd (by decide) hg
    · rw [lookup_objSet_ne n c st card hcc]
      exact h

theorem applyNoteOps_preserves_have (ops : List NoteOp) (n : Notes) (card : String)
    (h : n.lookup card = some "have") :
    (applyNoteOps n ops).lookup card = some "have" := by
  induction ops generalizing n with
  | nil => exact h
  | cons op ops ih =>
    cases op with
    | cycle c => exact ih (cycleNote n c) (cycleNote_preserves_have n c card h)
    | mark c st => exact ih (markCard n c st) (markCard_preserves_have n c st card h)

theorem cycleNote_lookup_self (n : Notes) (card : String)
    (h : n.lookup card ≠ some "have") :
    (cycleNote n card).lookup card = some (cycleNext ((n.lookup card).getD "")) := by
  unfold cycleNote
  have hg : (n.lookup card == some "have") = false := beq_eq_false_iff_ne.mpr h
  rw [if_neg (by simp [hg])]
  exact lookup_objSet_self n card _

theorem cycleNext_mem (cur : String) :
    cycleNext cur ∈ (["", "no", "maybe"] : List String) := by
  by_cases h1 : cur = ""
  · subst h1; decide
  · by_cases h2 : cur = "no"
    · subst h2; decide
    · by_cases h3 : cur = "maybe"
      · subst h3; decide
      · have e1 : ("" == cur) = false := by
          simp only [beq_eq_false_iff_ne]; exact fun e => h1 e.symm
        have e2 : ("no" == cur) = false := by
          simp only [beq_eq_false_iff_ne]; exact fun e => h2 e.symm
        have e3 : ("maybe" == cur) = false := by
          simp only [beq_eq_false_iff_ne]; exact fun e => h3 e.symm
        have hnone : CYCLE.findIdx? (fun x => x == cur) = none := by
          simp [CYCLE, List.findIdx?_cons, List.findIdx?_nil, e1, e2, e3]
        unfold cycleNext cycleIndexOf
        rw [hnone]
        decide

/-! ### Claim theorems -/

/-- Claim C6: the card namespace is the union of exactly 6 suspects,
6 weapons and 9 rooms, 21 pairwise-distinct values in one flat
namespace, and `cardCategory` classifies every card into exactly one of
the three categories. -/
theorem C6_deck_composition :
    SUSPECTS.length = 6 ∧ WEAPONS.length = 6 ∧ ROOMS.length = 9 ∧
    ALL_CARDS.length = 21 ∧ ALL_CARDS.Nodup ∧
    (∀ c ∈ ALL_CARDS,
      (cardCategory c = "card-suspect" ∧ c ∈ SUSPECTS ∧ c ∉ WEAPONS ∧ c ∉ ROOMS) ∨
      (cardCategory c = "card-weapon" ∧ c ∉ SUSPECTS ∧ c ∈ WEAPONS ∧ c ∉ ROOMS) ∨
      (cardCategory c = "card-room" ∧ c ∉ SUSPECTS ∧ c ∉ WEAPONS ∧ c ∈ ROOMS)) := by
  decide

/-- Claim C8: the secret-passage table has exactly four entries, the
two pairs Study-Kitchen and Lounge-Conservatory, and it is symmetric:
the reverse of every entry is also an entry. -/
theorem C8_secret_passages_symmetric :
    secretPassages.length = 4 ∧
    (∀ p ∈ secretPassages, (p.2, p.1) ∈ secretPassages) ∧
    (∀ p ∈ secretPassages,
      (p.1 = "Study" ∧ p.2 = "Kitchen") ∨ (p.1 = "Kitchen" ∧ p.2 = "Study") ∨
      (p.1 = "Lounge" ∧ p.2 = "Conservatory") ∨
      (p.1 = "Conservatory" ∧ p.2 = "Lounge")) ∧
    ("Study", "Kitchen") ∈ secretPassages ∧
    ("Lounge", "Conservatory") ∈ secretPassages := by
  decide

/-- Claim C3: the cards offered to the queried responder are exactly
the intersection of the hand with the three suggested values, so every
card selectable through this interface is in the hand and matches the
suggestion. -/
theorem C3_matching_cards_intersection :
    ∀ (cards : List String) (r : ShowCardRequest) (c : String),
      c ∈ matchingCards (some r) cards ↔
        c ∈ cards ∧ (c = r.suspect ∨ c = r.weapon ∨ c = r.room) := by
  intro cards r c
  simp [matchingCards, List.mem_filter]

/-! ### Concrete fixture states -/

def pAlice : Player := ⟨"P1", "Alice", "Miss Scarlett", "human", true⟩

def pBob : Player := ⟨"P2", "Bob", "Colonel Mustard", "human", true⟩

def gsPlaying : GameStateJS where
  status := "playing"
  players := [pAlice, pBob]
  whose_turn := some "P1"
  current_room := [("P1", "Library")]
  last_roll := none
  dice_rolled := true
  suggestions_this_turn := []
  winner := none
  solution := none
  turn_number := 3
  your_cards := none
  available_actions := none

def csPlaying : ClientState where
  gameState := some gsPlaying
  yourCards := ["Knife", "Hall"]
  availableActions := ["suggest", "accuse", "end_turn"]
  showCardRequest := none
  cardShown := none
  chatMessages := []

def csFinished : ClientState :=
  { csPlaying with
      gameState := some { gsPlaying with status := "finished", winner := some "P1" },
      availableActions := [] }

def gsNoRoom : GameStateJS := { gsPlaying with current_room := [] }

def csNoRoom : ClientState where
  gameState := some gsNoRoom
  yourCards := []
  availableActions := ["suggest"]
  showCardRequest := none
  cardShown := none
  chatMessages := []

def notesInit : Notes := [("Knife", "have"), ("Rope", "seen")]

/-- Claim C1: a `card_shown_public` message changes nothing in the
client state except clearing the pending show-card request (so no card
identity is stored), any two such messages produce identical states
regardless of which card was actually shown, while a `card_shown`
message records exactly the shown card and the shower. -/
theorem C1_card_shown_privacy :
    ∀ (s : ClientState) (c1 b1 c2 b2 : String),
      handleMessage s (.card_shown_public c1 b1) =
        handleMessage s (.card_shown_public c2 b2) ∧
      handleMessage s (.card_shown_public c1 b1) =
        { s with showCardRequest := none } ∧
      ∀ (card shower : String) (aa : Option (List String)),
        handleMessage s (.card_shown card shower aa) =
          { s with cardShown := some ⟨card, shower⟩,
                   availableActions := aa.getD s.availableActions,
                   showCardRequest := none } := by
  intro s c1 b1 c2 b2
  exact ⟨rfl, rfl, fun card shower aa => rfl⟩

/-- Claim C2 counterexample: a `player_moved` message carrying dice
total 7 stores `last_roll = (7, 0)`; the second component 0 is not
between 1 and 6, so the stored value is not a pair of two dice each in
1..6. -/
theorem C2_counterexample :
    (handleMessage csPlaying (.player_moved "P1" "Kitchen" 7)).gameState.bind
        (fun gs => gs.last_roll) = some (7, 0) ∧
    ¬ (1 ≤ (0 : Int) ∧ (0 : Int) ≤ 6) := by
  exact ⟨rfl, by decide⟩

/-- Claim C2 (amended): for every `player_moved` message the client
stores `last_roll = (dice total, 0)`: the first component is the total
used for movement, the second is always 0, and their sum equals the
total (the per-die values are not transmitted to the client). -/
theorem C2_last_roll_amended :
    ∀ (s : ClientState) (gs : GameStateJS) (pid room : String) (dice : Int),
      s.gameState = some gs →
      handleMessage s (.player_moved pid room dice) =
        { s with gameState := some { gs with
            current_room := objSet gs.current_room pid room,
            last_roll := some (dice, 0),
            dice_rolled := true } } ∧
      (dice, (0 : Int)).1 + (dice, (0 : Int)).2 = dice := by
  intro s gs pid room dice h
  obtain ⟨gsOpt, yc, aa, scr, cSh, cm⟩ := s
  cases h
  exact ⟨rfl, add_zero dice⟩

theorem C2_last_roll_witness :
    handleMessage csPlaying (.player_moved "P1" "Ballroom" 5) =
      { csPlaying with gameState := some { gsPlaying with
          current_room := objSet gsPlaying.current_room "P1" "Ballroom",
          last_roll := some (5, 0),
          dice_rolled := true } } :=
  (C2_last_roll_amended csPlaying gsPlaying "P1" "Ballroom" 5 rfl).1

/-- Claim C4: an `accusation_made` message with `correct = false`
flips exactly the accusing participant's active flag to false and
changes nothing else (every other field of every participant and every
other field of the client state is unchanged); with `correct = true`
the state is unchanged entirely. -/
theorem C4_accusation_frame :
    ∀ (s : ClientState) (gs : GameStateJS) (pid : String),
      s.gameState = some gs →
      handleMessage s (.accusation_made pid true) = s ∧
      ∃ ps, handleMessage s (.accusation_made pid false) =
          { s with gameState := some { gs with players := ps } } ∧
        List.Forall₂ (fun p q =>
          q.id = p.id ∧ q.name = p.name ∧ q.character = p.character ∧
          q.ptype = p.ptype ∧
          q.active = (if p.id = pid then false else p.active)) gs.players ps := by
  intro s gs pid h
  obtain ⟨gsOpt, yc, aa, scr, cSh, cm⟩ := s
  cases h
  refine ⟨rfl,
    gs.players.map (fun p => if p.id == pid then { p with active := false } else p),
    ?_, ?_⟩
  · rfl
  · induction gs.players with
    | nil => exact List.Forall₂.nil
    | cons p t ih =>
      refine List.Forall₂.cons ?_ ih
      by_cases hp : p.id = pid
      · simp [hp]
      · have hb : (p.id == pid) = false := by simp [hp]
        simp [hb, hp]

theorem C4_accusation_witness :
    handleMessage csPlaying (.accusation_made "P1" true) = csPlaying ∧
    ∃ ps, handleMessage csPlaying (.accusation_made "P1" false) =
        { csPlaying with gameState := some { gsPlaying with players := ps } } ∧
      List.Forall₂ (fun p q =>
        q.id = p.id ∧ q.name = p.name ∧ q.character = p.character ∧
        q.ptype = p.ptype ∧
        q.active = (if p.id = "P1" then false else p.active)) gsPlaying.players ps :=
  C4_accusation_frame csPlaying gsPlaying "P1" rfl

/-- Claim C7 (amended): processing `game_over` sets the status to
finished with the winner and solution from the message and empties the
available-action list; the client offers no move/suggest/accuse/end-turn
control while the status is not `playing` (both action panels require
status = playing).  A later `game_started` or full-state message can
set the status back to `playing` and re-enable the controls, so the
guarantee holds only while the status remains finished. -/
theorem C7_game_over_amended :
    ∀ (s : ClientState) (gs : GameStateJS) (w : Option String)
      (sol : Option SolutionCards),
      s.gameState = some gs →
      handleMessage s (.game_over w sol) =
        { s with
            gameState := some { gs with
              status := "finished", winner := w, solution := sol },
            availableActions := [] } ∧
      ∀ (t : ClientState) (pid : String) (obs : Bool),
        statusIs t "playing" = false →
          actionsPanelShown t pid obs = false ∧
          moveControlOffered t pid obs = false ∧
          suggestControlOffered t pid obs = false ∧
          accuseControlOffered t pid obs = false ∧
          endTurnControlOffered t pid obs = false ∧
          actionsPanelShownGB t pid = false := by
  intro s gs w sol h
  obtain ⟨gsOpt, yc, aa, scr, cSh, cm⟩ := s
  cases h
  refine ⟨rfl, ?_⟩
  intro t pid obs hs
  have hpanel : actionsPanelShown t pid obs = false := by
    unfold actionsPanelShown
    rw [hs]
    simp
  have hgb : actionsPanelShownGB t pid = false := by
    unfold actionsPanelShownGB
    rw [hs]
    simp
  refine ⟨hpanel, ?_, ?_, ?_, ?_, hgb⟩
  · simp [moveControlOffered, hpanel]
  · simp [suggestControlOffered, hpanel]
  · simp [accuseControlOffered, hpanel]
  · simp [endTurnControlOffered, hpanel]

/-- Claim C7 counterexample: after a `game_over` the status is finished
and the action list empty, but a subsequent `game_started` message sets
the status back to `playing` and the client again offers the move
control, so the client taken alone does not guarantee that controls are
never offered again after `game_over`. -/
theorem C7_counterexample :
    statusIs (handleMessage csPlaying (.game_over (some "P1") none)) "finished" = true ∧
    (handleMessage csPlaying (.game_over (some "P1") none)).availableActions = [] ∧
    moveControlOffered
      (handleMessage (handleMessage csPlaying (.game_over (some "P1") none))
        (.game_started none (some ["move"]) (some "P1")))
      "P1" false = true := by
  decide

theorem C7_game_over_witness :
    handleMessage csPlaying
        (.game_over (some "P1") (some ⟨"Mrs. Peacock", "Rope", "Study"⟩)) =
      { csPlaying with
          gameState := some { gsPlaying with
            status := "finished",
            winner := some "P1",
            solution := some ⟨"Mrs. Peacock", "Rope", "Study"⟩ },
          availableActions := [] } ∧
    actionsPanelShown csFinished "P1" false = false := by
  have h := C7_game_over_amended csPlaying gsPlaying (some "P1")
    (some ⟨"Mrs. Peacock", "Rope", "Study"⟩) rfl
  exact ⟨h.1, (h.2 csFinished "P1" false (by decide)).1⟩

/-- Claim C5 counterexample: in the `part_005` game board the suggest
controls are guarded only by the server-sent available-actions list, so
there is a client state where the suggest controls are offered while
the acting participant occupies no room, and the suggestion then
emitted carries a null room. -/
theorem C5_counterexample :
    suggestControlOffered csNoRoom "P1" false = true ∧
    myCurrentRoom csNoRoom "P1" = none ∧
    (doSuggest csNoRoom "P1" "Miss Scarlett" "Knife").room = none := by
  decide

/-- Claim C5 (amended): every suggest action emitted by the client
carries `room` equal to the current room recorded for the acting
participant (null when none is recorded); the older `GameBoard.vue`
variant offers the suggest controls only while the participant occupies
a room (and dice are rolled), while the `part_005` variant offers them
whenever the server-supplied available-actions list contains
`suggest`, without a client-side room check. -/
theorem C5_suggest_room_amended :
    ∀ (s : ClientState) (playerId suspect weapon : String),
      (doSuggest s playerId suspect weapon).room = myCurrentRoom s playerId ∧
      (suggestControlsShownGB s playerId = true →
        myCurrentRoom s playerId ≠ none) := by
  intro s playerId suspect weapon
  refine ⟨rfl, ?_⟩
  intro hshow
  unfold suggestControlsShownGB at hshow
  have htruthy : isTruthyRoom (myCurrentRoom s playerId) = true := by
    simp only [Bool.and_eq_true] at hshow
    exact hshow.1.2
  cases hmc : myCurrentRoom s playerId with
  | none =>
    rw [hmc] at htruthy
    exact absurd htruthy (by decide)
  | some r => simp

theorem C5_suggest_room_witness :
    (doSuggest csPlaying "P1" "Mrs. White" "Rope").room = myCurrentRoom csPlaying "P1" ∧
    myCurrentRoom csPlaying "P1" ≠ none := by
  have h := C5_suggest_room_amended csPlaying "P1" "Mrs. White" "Rope"
  exact ⟨h.1, h.2 (by decide)⟩

/-- Claim C9: a card whose note state is `have` keeps that state under
every sequence of note-row clicks and programmatic `markCard` calls,
and a click on a card not marked `have` only ever moves along
unknown, `no`, `maybe`, unknown — it never produces `have` or `seen`. -/
theorem C9_notes_have_immutable :
    ∀ (n : Notes) (card : String) (ops : List NoteOp),
      (n.lookup card = some "have" →
        (applyNoteOps n ops).lookup card = some "have") ∧
      (n.lookup card ≠ some "have" →
        ((n.lookup card).getD "" = "" →
          (cycleNote n card).lookup card = some "no") ∧
        (n.lookup card = some "no" →
          (cycleNote n card).lookup card = some "maybe") ∧
        (n.lookup card = some "maybe" →
          (cycleNote n card).lookup card = some "") ∧
        (cycleNote n card).lookup card ≠ some "have" ∧
        (cycleNote n card).lookup card ≠ some "seen" ∧
        (cycleNote n card).lookup card ∈ [some "", some "no", some "maybe"]) := by
  intro n card ops
  constructor
  · exact applyNoteOps_preserves_have ops n card
  · intro h
    have hself := cycleNote_lookup_self n card h
    have hmem3 : cycleNext ((n.lookup card).getD "") = "" ∨
        cycleNext ((n.lookup card).getD "") = "no" ∨
        cycleNext ((n.lookup card).getD "") = "maybe" := by
      simpa using cycleNext_mem ((n.lookup card).getD "")
    refine ⟨?_, ?_, ?_, ?_, ?_, ?_⟩
    · intro h0
      rw [hself, h0]
      decide
    · intro h0
      rw [hself, h0]
      decide
    · intro h0
      rw [hself, h0]
      decide
    · rw [hself]
      rcases hmem3 with hc | hc | hc <;> rw [hc] <;> decide
    · rw [hself]
      rcases hmem3 with hc | hc | hc <;> rw [hc] <;> decide
    · rw [hself]
      rcases hmem3 with hc | hc | hc <;> rw [hc] <;> decide

theorem C9_notes_witness :
    (applyNoteOps notesInit
        [NoteOp.cycle "Knife", NoteOp.mark "Knife" "no",
         NoteOp.cycle "Hall"]).lookup "Knife" = some "have" ∧
    (cycleNote notesInit "Rope").lookup "Rope" ∈ [some "", some "no", some "maybe"] := by
  refine ⟨(C9_notes_have_immutable notesInit "Knife"
      [NoteOp.cycle "Knife", NoteOp.mark "Knife" "no", NoteOp.cycle "Hall"]).1
      (by decide), ?_⟩
  have h := (C9_notes_have_immutable notesInit "Rope" []).2 (by decide)
  exact h.2.2.2.2.2

theorem dropWhile_all_true (l : List Char) (h : l.all isJsWhitespace = true) :
    l.dropWhile isJsWhitespace = [] := by
  induction l with
  | nil => rfl
  | cons c t ih =>
    rw [List.all_cons] at h
    simp only [Bool.and_eq_true] at h
    rw [List.dropWhile_cons]
    simp [h.1, ih h.2]

theorem jsTrim_all_ws (s : String) (h : s.data.all isJsWhitespace = true) :
    jsTrim s = "" := by
  unfold jsTrim
  rw [dropWhile_all_true s.data h]
  decide

/-- Claim C10: `sendMessage` emits the trimmed text exactly when the
trimmed text is non-empty and clears the input field exactly when it
emits; whitespace-only input produces no event and leaves the field
unchanged. -/
theorem C10_send_message :
    ∀ input : String,
      ((jsSendMessage input).1.isSome ↔ jsTrim input ≠ "") ∧
      (jsTrim input = "" → jsSendMessage input = (none, input)) ∧
      (jsTrim input ≠ "" → jsSendMessage input = (some (jsTrim input), "")) ∧
      (input.data.all isJsWhitespace = true → jsSendMessage input = (none, input)) := by
  intro input
  by_cases h : jsTrim input = ""
  · have he : jsSendMessage input = (none, input) := by
      simp only [jsSendMessage]
      rw [if_pos h]
    refine ⟨?_, fun _ => he, fun hne => absurd h hne, fun _ => he⟩
    rw [he]
    simp [h]
  · have he : jsSendMessage input = (some (jsTrim input), "") := by
      simp only [jsSendMessage]
      rw [if_neg h]
    refine ⟨?_, fun hc => absurd hc h, fun _ => he,
      fun hws => absurd (jsTrim_all_ws input hws) h⟩
    rw [he]
    simp [h]

theorem C10_send_message_witness :
    jsSendMessage "  hi " = (some (jsTrim "  hi "), "") ∧
    jsSendMessage "   " = (none, "   ") :=
  ⟨(C10_send_message "  hi ").2.2.1 (by decide),
   (C10_send_message "   ").2.1 (by decide)⟩
